import Mathlib

/-!
Shallow embedding of the Mini-Project campus vehicle-authorization portal.

The repository has two variants of the same Flask application:
* `Gated`  — "Mini Project Original (SAFE)/app.py": SQLite-backed stores,
  session-gated routes;
* `Pub`    — "Mini Project Container/app.py": flat-file authorized list,
  no authentication.

Strings are modelled by Lean `String` (a list of unicode scalar values, as
in Python).  Timestamps are modelled by `Nat`: the source stores ISO-8601
strings produced by a monotone clock and orders them lexicographically,
which agrees with chronological order, so a numeric clock is a faithful
abstraction.  SQLite tables are modelled as association lists / lists of
rows; `INSERT` is an append, `SELECT ... WHERE plate = ?` on the primary
key is `List.find?`, `ORDER BY upload_time DESC` is a sort.
-/

namespace MiniProject

/-- The characters removed by Python `str.strip()` for ASCII input:
space, tab, newline, carriage return, vertical tab, form feed. -/
def isPySpace (c : Char) : Bool :=
  decide (c.toNat = 32 ∨ c.toNat = 9 ∨ c.toNat = 10 ∨ c.toNat = 13 ∨
          c.toNat = 11 ∨ c.toNat = 12)

/-- Python `str.strip()`: drop leading and trailing whitespace. -/
def pyStrip (l : List Char) : List Char :=
  ((l.dropWhile isPySpace).reverse.dropWhile isPySpace).reverse

/-- Python `str.upper()` on ASCII input: per-character basic-latin
uppercasing (`Char.toUpper` is exactly the `ord`-based ASCII map). -/
def pyUpper (l : List Char) : List Char := l.map Char.toUpper

/-- Python `str.replace(" ", "")`: drop every space (U+0020) character. -/
def removeSpaces (l : List Char) : List Char :=
  l.filter (fun c => decide (c.toNat ≠ 32))

/-- `license_plate.strip().upper().replace(" ", "")`, the plate
normalization applied by both variants of `verify_vehicle`. -/
def normalizeList (l : List Char) : List Char :=
  removeSpaces (pyUpper (pyStrip l))

/-- Plate normalization on `String`. -/
def normalize (s : String) : String := String.mk (normalizeList s.toList)

/-- `str.strip()` on `String` (used by the `/scan` route before the blank
check). -/
def pyStripStr (s : String) : String := String.mk (pyStrip s.toList)

/-! ## Audit log (`images` table), shared verbatim by both variants -/

/-- One row of the `images` table: `filename, upload_time, plate,
is_authorized`.  `upload_time` is the monotone clock value (see the module
comment). -/
structure UploadRecord where
  filename : String
  upload_time : Nat
  plate : String
  is_authorized : Bool
  deriving Repr, DecidableEq

/-- `save_image`: append one row to the `images` table and return the
stored filename.  The table state and the clock are explicit arguments;
`werkzeug.secure_filename` and the filesystem write are external
collaborators outside the audit-log state, so the stored name is the
submitted one. -/
def save_image (idb : List UploadRecord) (filename plate : String)
    (is_authorized : Bool) (now : Nat) : String × List UploadRecord :=
  (filename, idb ++ [⟨filename, now, plate, is_authorized⟩])

/-- Insert into a list kept in decreasing `upload_time` order. -/
def insertByTimeDesc (r : UploadRecord) :
    List UploadRecord → List UploadRecord
  | [] => [r]
  | x :: xs =>
      if r.upload_time ≤ x.upload_time then x :: insertByTimeDesc r xs
      else r :: x :: xs

/-- Sort by decreasing `upload_time` (insertion sort). -/
def sortByTimeDesc : List UploadRecord → List UploadRecord
  | [] => []
  | x :: xs => insertByTimeDesc x (sortByTimeDesc xs)

/-- `get_images`: `SELECT ... FROM images ORDER BY upload_time DESC`. -/
def get_images (idb : List UploadRecord) : List UploadRecord :=
  sortByTimeDesc idb

/-- Reverse-chronological ordering: every later entry of the list has an
`upload_time` no greater than every earlier one. -/
def SortedByTimeDesc (l : List UploadRecord) : Prop :=
  List.Pairwise (fun a b => b.upload_time ≤ a.upload_time) l

/-- One call to the upload/append pipeline: the data `save_image` receives
from the route (`is_authorized` is whatever verdict `verify_vehicle`
produced for the call). -/
structure UploadCall where
  filename : String
  plate : String
  is_authorized : Bool
  time : Nat

/-- Run a sequence of `save_image` calls against the audit log. -/
def runUploads (idb : List UploadRecord) (calls : List UploadCall) :
    List UploadRecord :=
  calls.foldl
    (fun d c => (save_image d c.filename c.plate c.is_authorized c.time).2)
    idb

/-- The multipart request seen by the `/upload` route: `image` is
`some filename` when `'image' in request.files`, and `license_plate` is
`some v` when the form carries that field. -/
structure UploadRequest where
  image : Option String
  license_plate : Option String

/-! ## Gated variant: "Mini Project Original (SAFE)/app.py" -/

namespace Gated

/-- One row of the `vehicles` table (`plate` is the primary key;
`is_authorized` is stored as `INTEGER` 0/1, modelled as `Bool`). -/
structure VehicleRow where
  plate : String
  owner : String
  is_authorized : Bool
  deriving Repr, DecidableEq

/-- The sample rows seeded by `init_vehicle_db` into an empty store. -/
def sample_rows : List VehicleRow :=
  [ ⟨"MH12AB1234", "Aarav Mehta", true⟩,
    ⟨"DL8CAF4921", "Isha Kapoor", true⟩,
    ⟨"KA03MN7788", "Rohan Iyer", false⟩,
    ⟨"GJ01XY9900", "Priya Shah", true⟩,
    ⟨"UP16ZZ4321", "Vikram Singh", false⟩ ]

/-- `SELECT owner, is_authorized FROM vehicles WHERE plate = ?` — lookup
by primary key. -/
def vehicleLookup (db : List VehicleRow) (p : String) : Option VehicleRow :=
  db.find? (fun r => r.plate == p)

/-- The verdict dictionary returned by `verify_vehicle` (the `details`
sub-dictionary is flattened to its single `owner` field). -/
structure VerificationResult where
  is_authorized : Bool
  plate : String
  owner : String
  message : String
  alert_type : String
  deriving Repr, DecidableEq

/-- `verify_vehicle` of the gated variant: normalize the plate, look it up
in the `vehicles` table, and build the verdict. -/
def verify_vehicle (db : List VehicleRow) (license_plate : String) :
    VerificationResult :=
  let clean_plate := normalize license_plate
  match vehicleLookup db clean_plate with
  | some r =>
      { is_authorized := r.is_authorized
        plate := clean_plate
        owner := r.owner
        message :=
          if r.is_authorized then
            "SUCCESS! Vehicle " ++ clean_plate ++ " is authorized."
          else
            "ALERT! Vehicle " ++ clean_plate ++ " is UNAUTHORIZED."
        alert_type := if r.is_authorized then "success" else "error" }
  | none =>
      { is_authorized := false
        plate := clean_plate
        owner := "UNKNOWN"
        message := "ALERT! Vehicle " ++
          (if clean_plate = "" then "UNKNOWN" else clean_plate) ++
          " is UNAUTHORIZED/UNKNOWN."
        alert_type := "error" }

/-- One row of the `users` table (`created_at`, a wall-clock string never
read back, is omitted). -/
structure UserRow where
  id : Nat
  username : String
  password : String
  full_name : String
  role : String
  deriving Repr, DecidableEq

/-- The users seeded by `init_auth_db` into an empty store (ids from
`AUTOINCREMENT` insertion order). -/
def seeded_users : List UserRow :=
  [ ⟨1, "admin", "admin123", "Administrator", "admin"⟩,
    ⟨2, "student1", "pass123", "Rahul Sharma", "student"⟩,
    ⟨3, "student2", "pass123", "Priya Patel", "student"⟩,
    ⟨4, "faculty1", "pass123", "Dr. Amit Kumar", "faculty"⟩ ]

/-- The row `authenticate_user` returns on success. -/
structure AuthUser where
  id : Nat
  username : String
  full_name : String
  role : String
  deriving Repr, DecidableEq

/-- `authenticate_user`: `SELECT id, username, full_name, role FROM users
WHERE username = ? AND password = ?`, `None` when no row matches. -/
def authenticate_user (users : List UserRow) (username password : String) :
    Option AuthUser :=
  (users.find? (fun u => u.username == username && u.password == password)).map
    (fun u => ⟨u.id, u.username, u.full_name, u.role⟩)

/-- The session dictionary populated on successful login. -/
structure SessionData where
  user_id : Nat
  username : String
  full_name : String
  role : String
  deriving Repr, DecidableEq

/-- Response of a POST to `/login`. -/
inductive LoginResponse where
  | redirect (target : String)
  | renderLogin (error : Option String)
  deriving Repr, DecidableEq

/-- The POST branch of the `login` route: on success populate the session
and redirect to the index; otherwise re-render the login page with the
generic error and leave the session empty. -/
def login_post (users : List UserRow) (username password : String) :
    LoginResponse × Option SessionData :=
  match authenticate_user users username password with
  | some u => (.redirect "index", some ⟨u.id, u.username, u.full_name, u.role⟩)
  | none => (.renderLogin (some "Invalid username or password"), none)

/-- Response of a POST to `/scan`.  `badRequest` carries HTTP 400 and the
JSON body `{is_authorized, message, alert_type}`. -/
inductive ScanResponse where
  | redirect (target : String)
  | badRequest (is_authorized : Bool) (message : String) (alert_type : String)
  | ok (result : VerificationResult)
  deriving Repr, DecidableEq

/-- The `/scan` route.  `sess` models the request session: `login_required`
redirects to the login page when `'user_id' not in session`.  The raw
body value `data.get('license_plate', '')` is stripped and checked for
blankness before `verify_vehicle` runs. -/
def scan_vehicle (sess : Option Nat) (db : List VehicleRow)
    (license_plate : String) : ScanResponse :=
  match sess with
  | none => .redirect "login"
  | some _ =>
      let lp := pyStripStr license_plate
      if lp = "" then
        .badRequest false "Error: No license plate detected." "warning"
      else
        .ok (verify_vehicle db lp)

/-- Response of a POST to `/upload` (gated variant). -/
inductive UploadResponse where
  | redirect (target : String)
  | badRequest (message : String)
  | ok (message : String) (filename : String) (result : VerificationResult)
  deriving Repr, DecidableEq

/-- The `/upload` route (gated): behind `login_required`; missing file or
empty filename is a 400; otherwise the form plate (default `"UNKNOWN"`)
is verified and the image row appended. -/
def upload_image (sess : Option Nat) (vdb : List VehicleRow)
    (idb : List UploadRecord) (now : Nat) (req : UploadRequest) :
    UploadResponse × List UploadRecord :=
  match sess with
  | none => (.redirect "login", idb)
  | some _ =>
      match req.image with
      | none => (.badRequest "No image uploaded", idb)
      | some fname =>
          if fname = "" then (.badRequest "No selected file", idb)
          else
            let plate := req.license_plate.getD "UNKNOWN"
            let result := verify_vehicle vdb plate
            let saved := save_image idb fname plate result.is_authorized now
            (.ok "Image uploaded" saved.1 result, saved.2)

/-- Response of a GET of `/gallery` (gated variant). -/
inductive GalleryResponse where
  | redirect (target : String)
  | ok (images : List UploadRecord)
  deriving Repr, DecidableEq

/-- The `/gallery` route (gated): behind `login_required`; returns the
audit log newest-first. -/
def gallery (sess : Option Nat) (idb : List UploadRecord) :
    GalleryResponse :=
  match sess with
  | none => .redirect "login"
  | some _ => .ok (get_images idb)

end Gated

/-! ## Public variant: "Mini Project Container/app.py" -/

namespace Pub

/-- `load_authorized_vehicles`: normalize each line of
`authorized_vehicles.txt` and keep the non-blank ones.  Every entry of the
resulting dictionary has the same constant value
`{"owner": "N/A", "status": "Authorized"}`, so the key list is the whole
state.  The file is read once at process start; with no file present the
store is empty. -/
def load_authorized_vehicles (lines : List String) : List String :=
  (lines.map normalize).filter (fun p => decide (p ≠ ""))

/-- The verdict dictionary of the public variant (its `details`
sub-dictionary carries `owner` always and `status` only on the found
branch). -/
structure VerificationResult where
  is_authorized : Bool
  plate : String
  owner : String
  status : Option String
  message : String
  alert_type : String
  deriving Repr, DecidableEq

/-- `verify_vehicle` of the public variant: membership test in the loaded
`AUTHORIZED_VEHICLES` dictionary. -/
def verify_vehicle (store : List String) (license_plate : String) :
    VerificationResult :=
  let clean_plate := normalize license_plate
  if store.contains clean_plate then
    { is_authorized := true
      plate := clean_plate
      owner := "N/A"
      status := some "Authorized"
      message := "SUCCESS! Vehicle " ++ clean_plate ++ " is authorized."
      alert_type := "success" }
  else
    { is_authorized := false
      plate := clean_plate
      owner := "N/A"
      status := none
      message := "ALERT! Vehicle " ++ clean_plate ++ " is UNAUTHORIZED."
      alert_type := "error" }

/-- Response of a POST to `/upload` (public variant — no session gate). -/
inductive UploadResponse where
  | badRequest (message : String)
  | ok (message : String) (filename : String) (result : VerificationResult)
  deriving Repr, DecidableEq

/-- The `/upload` route (public): same pipeline as the gated variant but
without `login_required` and against the flat-file store. -/
def upload_image (store : List String) (idb : List UploadRecord) (now : Nat)
    (req : UploadRequest) : UploadResponse × List UploadRecord :=
  match req.image with
  | none => (.badRequest "No image uploaded", idb)
  | some fname =>
      if fname = "" then (.badRequest "No selected file", idb)
      else
        let plate := req.license_plate.getD "UNKNOWN"
        let result := verify_vehicle store plate
        let saved := save_image idb fname plate result.is_authorized now
        (.ok "Image uploaded" saved.1 result, saved.2)

end Pub

/-! ## Character-level lemmas about the normalization pipeline -/

theorem toUpper_eq (c : Char) :
    c.toUpper =
      if c.toNat ≥ 97 ∧ c.toNat ≤ 122 then Char.ofNat (c.toNat - 32) else c :=
  rfl

theorem toNat_toUpper (c : Char) :
    c.toUpper.toNat =
      if c.toNat ≥ 97 ∧ c.toNat ≤ 122 then c.toNat - 32 else c.toNat := by
  rw [toUpper_eq]
  split
  · next h =>
      have hv : (c.toNat - 32).isValidChar := Or.inl (by omega)
      rw [Char.ofNat, dif_pos hv]
      rfl
  · rfl

theorem toUpper_toUpper (c : Char) : c.toUpper.toUpper = c.toUpper := by
  by_cases h : c.toNat ≥ 97 ∧ c.toNat ≤ 122
  · have h1 : c.toUpper.toNat = c.toNat - 32 := by rw [toNat_toUpper, if_pos h]
    rw [toUpper_eq c.toUpper, if_neg]
    rw [h1]
    omega
  · have h0 : c.toUpper = c := by rw [toUpper_eq, if_neg h]
    rw [h0, h0]

theorem isPySpace_toUpper (c : Char) : isPySpace c.toUpper = isPySpace c := by
  unfold isPySpace
  rw [toNat_toUpper]
  by_cases h : c.toNat ≥ 97 ∧ c.toNat ≤ 122
  · rw [if_pos h, decide_eq_decide]
    omega
  · rw [if_neg h]

theorem keep_of_not_pySpace (c : Char) (h : isPySpace c = false) :
    decide (c.toNat ≠ 32) = true := by
  unfold isPySpace at h
  simp only [decide_eq_false_iff_not] at h
  simp only [decide_eq_true_eq]
  omega

/-! ## Lemmas about `pyStrip` -/

theorem pyStrip_head? (l : List Char) (c : Char)
    (h : (pyStrip l).head? = some c) : isPySpace c = false := by
  unfold pyStrip at h
  rw [List.head?_reverse] at h
  obtain ⟨t, ht⟩ :=
    List.dropWhile_suffix (l := (List.dropWhile isPySpace l).reverse) isPySpace
  have h2 : ((List.dropWhile isPySpace l).reverse).getLast? = some c := by
    rw [← ht, List.getLast?_append, h]
    rfl
  rw [List.getLast?_reverse] at h2
  have h3 := List.head?_dropWhile_not isPySpace l
  rw [h2] at h3
  exact h3

theorem pyStrip_getLast? (l : List Char) (c : Char)
    (h : (pyStrip l).getLast? = some c) : isPySpace c = false := by
  unfold pyStrip at h
  rw [List.getLast?_reverse] at h
  have h3 :=
    List.head?_dropWhile_not isPySpace (List.dropWhile isPySpace l).reverse
  rw [h] at h3
  exact h3

theorem pyStrip_eq_self (l : List Char)
    (hh : ∀ c, l.head? = some c → isPySpace c = false)
    (hl : ∀ c, l.getLast? = some c → isPySpace c = false) :
    pyStrip l = l := by
  cases l with
  | nil => rfl
  | cons a as =>
      have ha : isPySpace a = false := hh a rfl
      have h1 : List.dropWhile isPySpace (a :: as) = a :: as := by
        rw [List.dropWhile_cons, if_neg (by simp [ha])]
      cases hrev : (a :: as).reverse with
      | nil => simp at hrev
      | cons b bs =>
          have hb : isPySpace b = false := by
            apply hl b
            rw [← List.head?_reverse, hrev]
            rfl
          have h2 : List.dropWhile isPySpace (b :: bs) = b :: bs := by
            rw [List.dropWhile_cons, if_neg (by simp [hb])]
          unfold pyStrip
          rw [h1, hrev, h2, ← hrev, List.reverse_reverse]

theorem pyStrip_eq_nil (l : List Char) (h : ∀ c ∈ l, isPySpace c = true) :
    pyStrip l = [] := by
  have h1 : List.dropWhile isPySpace l = [] :=
    List.dropWhile_eq_nil_iff.mpr (by simpa using h)
  unfold pyStrip
  rw [h1]
  rfl

/-! ## Idempotence of the normalization pipeline -/

theorem removeSpaces_pyUpper (x : List Char) :
    removeSpaces (pyUpper x) = pyUpper (removeSpaces x) := by
  unfold removeSpaces pyUpper
  rw [List.filter_map]
  congr 1
  apply List.filter_congr
  intro a _
  show decide (a.toUpper.toNat ≠ 32) = decide (a.toNat ≠ 32)
  rw [toNat_toUpper]
  by_cases h : a.toNat ≥ 97 ∧ a.toNat ≤ 122
  · rw [if_pos h, decide_eq_decide]
    omega
  · rw [if_neg h]

theorem pyUpper_pyUpper (x : List Char) : pyUpper (pyUpper x) = pyUpper x := by
  unfold pyUpper
  rw [List.map_map]
  apply List.map_congr_left
  intro a _
  exact toUpper_toUpper a

theorem removeSpaces_idem (x : List Char) :
    removeSpaces (removeSpaces x) = removeSpaces x := by
  unfold removeSpaces
  rw [List.filter_eq_self]
  intro a ha
  exact List.of_mem_filter (p := fun c : Char => decide (c.toNat ≠ 32)) ha

theorem removeSpaces_pyUpper_reverse (s : List Char) :
    (removeSpaces (pyUpper s)).reverse = removeSpaces (pyUpper s.reverse) := by
  unfold removeSpaces pyUpper
  rw [← List.filter_reverse, List.map_reverse]

theorem normalizeList_head (x : List Char) (b : Char)
    (hx : x.head? = some b) (hb : isPySpace b = false) :
    (removeSpaces (pyUpper x)).head? = some b.toUpper ∧
    isPySpace b.toUpper = false := by
  cases x with
  | nil => simp at hx
  | cons a t =>
      have hab : a = b := by
        simpa using hx
      subst hab
      have hk : isPySpace a.toUpper = false := by
        rw [isPySpace_toUpper]
        exact hb
      refine ⟨?_, hk⟩
      show (List.filter _ (a.toUpper :: List.map Char.toUpper t)).head? = _
      rw [List.filter_cons_of_pos (p := fun c : Char => decide (c.toNat ≠ 32))
        (keep_of_not_pySpace _ hk)]
      rfl

theorem normalizeList_idem (l : List Char) :
    normalizeList (normalizeList l) = normalizeList l := by
  have hstrip : pyStrip (normalizeList l) = normalizeList l := by
    apply pyStrip_eq_self
    · intro c hc
      cases hsl : pyStrip l with
      | nil =>
          rw [normalizeList, hsl] at hc
          simp [pyUpper, removeSpaces] at hc
      | cons b t =>
          have hb : isPySpace b = false := by
            apply pyStrip_head? l
            rw [hsl]
            rfl
          have hh := normalizeList_head (b :: t) b rfl hb
          rw [normalizeList, hsl, hh.1] at hc
          have hcb : b.toUpper = c := by simpa using hc
          rw [← hcb]
          exact hh.2
    · intro c hc
      rw [List.getLast?_eq_head?_reverse, normalizeList,
        removeSpaces_pyUpper_reverse] at hc
      cases hsl : (pyStrip l).reverse with
      | nil =>
          rw [hsl] at hc
          simp [pyUpper, removeSpaces] at hc
      | cons b t =>
          have hb : isPySpace b = false := by
            apply pyStrip_getLast? l
            rw [List.getLast?_eq_head?_reverse, hsl]
            rfl
          have hh := normalizeList_head ((pyStrip l).reverse) b
            (by rw [hsl]; rfl) hb
          rw [hh.1] at hc
          have hcb : b.toUpper = c := by simpa using hc
          rw [← hcb]
          exact hh.2
  calc normalizeList (normalizeList l)
      = removeSpaces (pyUpper (pyStrip (normalizeList l))) := rfl
    _ = removeSpaces (pyUpper (normalizeList l)) := by rw [hstrip]
    _ = removeSpaces (pyUpper (removeSpaces (pyUpper (pyStrip l)))) := rfl
    _ = removeSpaces (removeSpaces (pyUpper (pyUpper (pyStrip l)))) := by
          rw [removeSpaces_pyUpper (pyUpper (pyStrip l))]
    _ = removeSpaces (pyUpper (pyStrip l)) := by
          rw [removeSpaces_idem, pyUpper_pyUpper]
    _ = normalizeList l := rfl

/-! ## Audit-log lemmas -/

theorem length_insertByTimeDesc (r : UploadRecord) (l : List UploadRecord) :
    (insertByTimeDesc r l).length = l.length + 1 := by
  induction l with
  | nil => rfl
  | cons x xs ih =>
      simp only [insertByTimeDesc]
      split
      · simp only [List.length_cons, ih]
      · simp only [List.length_cons]

theorem mem_insertByTimeDesc {x r : UploadRecord} {l : List UploadRecord} :
    x ∈ insertByTimeDesc r l ↔ x = r ∨ x ∈ l := by
  induction l with
  | nil => simp [insertByTimeDesc]
  | cons y ys ih =>
      simp only [insertByTimeDesc]
      split
      · simp only [List.mem_cons, ih]
        tauto
      · simp only [List.mem_cons]

theorem sorted_insertByTimeDesc (r : UploadRecord) (l : List UploadRecord)
    (h : SortedByTimeDesc l) : SortedByTimeDesc (insertByTimeDesc r l) := by
  induction l with
  | nil =>
      simp only [insertByTimeDesc, SortedByTimeDesc]
      exact List.pairwise_singleton _ _
  | cons y ys ih =>
      rw [SortedByTimeDesc, List.pairwise_cons] at h
      obtain ⟨hy, hys⟩ := h
      simp only [insertByTimeDesc]
      split
      · next hle =>
          rw [SortedByTimeDesc, List.pairwise_cons]
          refine ⟨?_, ih hys⟩
          intro z hz
          rcases mem_insertByTimeDesc.mp hz with rfl | hz
          · exact hle
          · exact hy z hz
      · next hgt =>
          rw [SortedByTimeDesc, List.pairwise_cons]
          constructor
          · intro z hz
            rcases List.mem_cons.mp hz with rfl | hz
            · omega
            · have := hy z hz
              omega
          · exact List.Pairwise.cons hy hys

theorem sorted_sortByTimeDesc (l : List UploadRecord) :
    SortedByTimeDesc (sortByTimeDesc l) := by
  induction l with
  | nil =>
      simp only [sortByTimeDesc, SortedByTimeDesc]
      exact List.Pairwise.nil
  | cons x xs ih =>
      simp only [sortByTimeDesc]
      exact sorted_insertByTimeDesc x _ ih

theorem length_sortByTimeDesc (l : List UploadRecord) :
    (sortByTimeDesc l).length = l.length := by
  induction l with
  | nil => rfl
  | cons x xs ih =>
      simp only [sortByTimeDesc, length_insertByTimeDesc, ih,
        List.length_cons]

theorem length_runUploads (idb : List UploadRecord) (calls : List UploadCall) :
    (runUploads idb calls).length = idb.length + calls.length := by
  induction calls generalizing idb with
  | nil => rfl
  | cons c cs ih =>
      have h2 : runUploads idb (c :: cs) =
          runUploads
            ((save_image idb c.filename c.plate c.is_authorized c.time).2)
            cs := rfl
      rw [h2, ih]
      simp only [save_image, List.length_append, List.length_cons,
        List.length_nil]
      omega

/-- Membership in the public-mode store loaded from the flat file: exactly
the plates some line of the file normalizes to, blank lines excluded. -/
theorem mem_load_authorized (lines : List String) (x : String) :
    (Pub.load_authorized_vehicles lines).contains x = true ↔
      ∃ l ∈ lines, normalize l ≠ "" ∧ normalize l = x := by
  show List.elem x (Pub.load_authorized_vehicles lines) = true ↔ _
  rw [List.elem_iff, Pub.load_authorized_vehicles]
  constructor
  · intro hx
    rw [List.mem_filter] at hx
    obtain ⟨hmem, hne⟩ := hx
    rw [List.mem_map] at hmem
    obtain ⟨l, hl, hlx⟩ := hmem
    rw [decide_eq_true_eq] at hne
    exact ⟨l, hl, by rw [hlx]; exact hne, hlx⟩
  · rintro ⟨l, hl, hne, hlx⟩
    rw [List.mem_filter]
    refine ⟨List.mem_map.mpr ⟨l, hl, hlx⟩, ?_⟩
    rw [decide_eq_true_eq, ← hlx]
    exact hne

/-! ## The claims -/

/-- C1: In gated mode, with the store seeded so that plate MH12AB1234 is
authorized with owner "Aarav Mehta", verify("mh12 ab1234") returns
isAuthorized=true, plate="MH12AB1234", owner "Aarav Mehta", and
alertType="success". -/
theorem C1_gated_verify_scenarioA :
    (Gated.verify_vehicle Gated.sample_rows "mh12 ab1234").is_authorized
        = true ∧
    (Gated.verify_vehicle Gated.sample_rows "mh12 ab1234").plate
        = "MH12AB1234" ∧
    (Gated.verify_vehicle Gated.sample_rows "mh12 ab1234").owner
        = "Aarav Mehta" ∧
    (Gated.verify_vehicle Gated.sample_rows "mh12 ab1234").alert_type
        = "success" := by
  decide

/-- C2: For every store contents, the verify pipeline applied to an empty
or all-whitespace raw plate string rejects with alertType=warning and
isAuthorized=false (the blank check of the `/scan` route, upstream of the
store lookup). -/
theorem C2_scan_blank (uid : Nat) (db : List Gated.VehicleRow) (raw : String)
    (h : ∀ c ∈ raw.toList, isPySpace c = true) :
    Gated.scan_vehicle (some uid) db raw =
      Gated.ScanResponse.badRequest false "Error: No license plate detected."
        "warning" := by
  have h1 : pyStripStr raw = "" := by
    rw [pyStripStr, pyStrip_eq_nil raw.toList h]
  simp [Gated.scan_vehicle, h1]

theorem C2_scan_blank_witness :
    Gated.scan_vehicle (some 1) Gated.sample_rows "   " =
      Gated.ScanResponse.badRequest false "Error: No license plate detected."
        "warning" ∧
    Gated.scan_vehicle (some 1) Gated.sample_rows "" =
      Gated.ScanResponse.badRequest false "Error: No license plate detected."
        "warning" :=
  ⟨C2_scan_blank 1 Gated.sample_rows "   " (by decide),
   C2_scan_blank 1 Gated.sample_rows "" (by decide)⟩

/-- C3: In gated mode, for every plate present in the store with
isAuthorized=false, verify returns isAuthorized=false, alertType="error",
and the owner field populated from the stored record. -/
theorem C3_gated_verify_blocked (db : List Gated.VehicleRow) (p : String)
    (r : Gated.VehicleRow)
    (hfind : Gated.vehicleLookup db (normalize p) = some r)
    (hauth : r.is_authorized = false) :
    (Gated.verify_vehicle db p).is_authorized = false ∧
    (Gated.verify_vehicle db p).alert_type = "error" ∧
    (Gated.verify_vehicle db p).owner = r.owner := by
  simp [Gated.verify_vehicle, hfind, hauth]

theorem C3_gated_verify_blocked_witness :
    (Gated.verify_vehicle Gated.sample_rows "KA03MN7788").is_authorized
        = false ∧
    (Gated.verify_vehicle Gated.sample_rows "KA03MN7788").alert_type
        = "error" ∧
    (Gated.verify_vehicle Gated.sample_rows "KA03MN7788").owner
        = "Rohan Iyer" :=
  C3_gated_verify_blocked Gated.sample_rows "KA03MN7788"
    ⟨"KA03MN7788", "Rohan Iyer", false⟩ (by decide) rfl

/-- C4: For every plate whose normalized form is absent from the store,
verify returns isAuthorized=false and alertType="error", with owner
"UNKNOWN" in gated mode and owner "N/A" in public mode. -/
theorem C4_verify_absent (db : List Gated.VehicleRow) (store : List String)
    (p q : String)
    (hg : Gated.vehicleLookup db (normalize p) = none)
    (hp : store.contains (normalize q) = false) :
    (Gated.verify_vehicle db p).is_authorized = false ∧
    (Gated.verify_vehicle db p).alert_type = "error" ∧
    (Gated.verify_vehicle db p).owner = "UNKNOWN" ∧
    (Pub.verify_vehicle store q).is_authorized = false ∧
    (Pub.verify_vehicle store q).alert_type = "error" ∧
    (Pub.verify_vehicle store q).owner = "N/A" := by
  have hp2 : normalize q ∉ store := by
    intro hmem
    rw [show store.contains (normalize q) = List.elem (normalize q) store
        from rfl, List.elem_iff.mpr hmem] at hp
    cases hp
  simp [Gated.verify_vehicle, hg, Pub.verify_vehicle, hp2]

theorem C4_verify_absent_witness :
    (Gated.verify_vehicle Gated.sample_rows "ZZ99ZZ9999").is_authorized
        = false ∧
    (Gated.verify_vehicle Gated.sample_rows "ZZ99ZZ9999").alert_type
        = "error" ∧
    (Gated.verify_vehicle Gated.sample_rows "ZZ99ZZ9999").owner
        = "UNKNOWN" ∧
    (Pub.verify_vehicle
        (Pub.load_authorized_vehicles ["MH12AB1234", "DL8CAF4921"])
        "ZZ99ZZ9999").is_authorized = false ∧
    (Pub.verify_vehicle
        (Pub.load_authorized_vehicles ["MH12AB1234", "DL8CAF4921"])
        "ZZ99ZZ9999").alert_type = "error" ∧
    (Pub.verify_vehicle
        (Pub.load_authorized_vehicles ["MH12AB1234", "DL8CAF4921"])
        "ZZ99ZZ9999").owner = "N/A" :=
  C4_verify_absent Gated.sample_rows
    (Pub.load_authorized_vehicles ["MH12AB1234", "DL8CAF4921"])
    "ZZ99ZZ9999" "ZZ99ZZ9999" (by decide) (by decide)

/-- C5: Every upload call appends a record regardless of the verdict, and
after N calls the retrieval returns exactly N records ordered
reverse-chronologically by upload time. -/
theorem C5_audit_completeness (calls : List UploadCall) :
    (∀ (idb : List UploadRecord) (c : UploadCall),
        ((save_image idb c.filename c.plate c.is_authorized c.time).2).length
          = idb.length + 1) ∧
    (get_images (runUploads [] calls)).length = calls.length ∧
    SortedByTimeDesc (get_images (runUploads [] calls)) := by
  refine ⟨?_, ?_, ?_⟩
  · intro idb c
    simp [save_image]
  · rw [get_images, length_sortByTimeDesc, length_runUploads]
    simp
  · exact sorted_sortByTimeDesc _

/-- C6: In gated mode, every request to /scan, /upload or /gallery without
a valid session redirects to login, returns no verdict or data, and leaves
the audit log unchanged. -/
theorem C6_session_gating (db : List Gated.VehicleRow)
    (idb : List UploadRecord) (raw : String) (now : Nat)
    (req : UploadRequest) :
    Gated.scan_vehicle none db raw = Gated.ScanResponse.redirect "login" ∧
    Gated.upload_image none db idb now req =
      (Gated.UploadResponse.redirect "login", idb) ∧
    Gated.gallery none idb = Gated.GalleryResponse.redirect "login" :=
  ⟨rfl, rfl, rfl⟩

/-- C7: Plate normalization (trim, uppercase, remove internal spaces) is
idempotent. -/
theorem C7_normalize_idempotent (p : String) :
    normalize (normalize p) = normalize p := by
  have h : normalize (normalize p) =
      String.mk (normalizeList (normalizeList p.toList)) := rfl
  rw [h, normalizeList_idem]
  rfl

/-- C8: In public mode, after loading the flat newline-delimited list,
verify authorizes exactly the plates whose normalized form appears in the
list (blank lines excluded), always with owner "N/A", and rejects every
other plate. -/
theorem C8_public_mode (lines : List String) (p : String) :
    ((Pub.verify_vehicle (Pub.load_authorized_vehicles lines) p).is_authorized
        = true ↔
      ∃ l ∈ lines, normalize l ≠ "" ∧ normalize l = normalize p) ∧
    (Pub.verify_vehicle (Pub.load_authorized_vehicles lines) p).owner
        = "N/A" := by
  constructor
  · rw [← mem_load_authorized lines (normalize p)]
    simp only [Pub.verify_vehicle]
    by_cases h :
        (Pub.load_authorized_vehicles lines).contains (normalize p) = true
    · rw [if_pos h]
      exact ⟨fun _ => h, fun _ => rfl⟩
    · rw [if_neg h]
      exact ⟨fun hfalse => absurd hfalse Bool.false_ne_true,
        fun hm => absurd hm h⟩
  · simp only [Pub.verify_vehicle]
    split
    · rfl
    · rfl

/-- C9: In gated mode, login with an unknown username and login with a
known username but wrong secret produce identical rejection responses, and
no session is issued in either case. -/
theorem C9_login_rejection (users : List Gated.UserRow)
    (u1 p1 u2 p2 : String)
    (h1 : ∀ u ∈ users, u.username ≠ u1)
    (h2 : ∃ u ∈ users, u.username = u2)
    (h3 : ∀ u ∈ users, u.username = u2 → u.password ≠ p2) :
    Gated.login_post users u1 p1 = Gated.login_post users u2 p2 ∧
    (Gated.login_post users u1 p1).2 = none ∧
    (Gated.login_post users u2 p2).2 = none := by
  have a1 : Gated.authenticate_user users u1 p1 = none := by
    rw [Gated.authenticate_user]
    have hf : users.find?
        (fun u => u.username == u1 && u.password == p1) = none := by
      rw [List.find?_eq_none]
      intro x hx
      simp only [Bool.and_eq_true, beq_iff_eq, not_and]
      intro hu _
      exact h1 x hx hu
    rw [hf]
    rfl
  have a2 : Gated.authenticate_user users u2 p2 = none := by
    rw [Gated.authenticate_user]
    have hf : users.find?
        (fun u => u.username == u2 && u.password == p2) = none := by
      rw [List.find?_eq_none]
      intro x hx
      simp only [Bool.and_eq_true, beq_iff_eq, not_and]
      intro hu hp
      exact h3 x hx hu hp
    rw [hf]
    rfl
  simp [Gated.login_post, a1, a2]

theorem C9_login_rejection_witness :
    Gated.login_post Gated.seeded_users "ghost" "pass123" =
      Gated.login_post Gated.seeded_users "admin" "wrongpw" ∧
    (Gated.login_post Gated.seeded_users "ghost" "pass123").2 = none ∧
    (Gated.login_post Gated.seeded_users "admin" "wrongpw").2 = none :=
  C9_login_rejection Gated.seeded_users "ghost" "pass123" "admin" "wrongpw"
    (by decide) (by decide) (by decide)

/-- C10: On /upload with an image file but no license_plate form field,
the literal string "UNKNOWN" is used as the plate: it is passed to verify
(yielding an unauthorized verdict for the default stores) and recorded as
the plate in the appended audit record. -/
theorem C10_upload_missing_plate (uid : Nat) (idb : List UploadRecord)
    (now : Nat) (fname : String) (hf : fname ≠ "") :
    Gated.upload_image (some uid) Gated.sample_rows idb now
        ⟨some fname, none⟩ =
      (Gated.UploadResponse.ok "Image uploaded" fname
        (Gated.verify_vehicle Gated.sample_rows "UNKNOWN"),
       idb ++ [⟨fname, now, "UNKNOWN", false⟩]) ∧
    (Gated.verify_vehicle Gated.sample_rows "UNKNOWN").is_authorized
        = false ∧
    Pub.upload_image [] idb now ⟨some fname, none⟩ =
      (Pub.UploadResponse.ok "Image uploaded" fname
        (Pub.verify_vehicle [] "UNKNOWN"),
       idb ++ [⟨fname, now, "UNKNOWN", false⟩]) ∧
    (Pub.verify_vehicle [] "UNKNOWN").is_authorized = false := by
  have hg : (Gated.verify_vehicle Gated.sample_rows "UNKNOWN").is_authorized
      = false := by decide
  have hpu : (Pub.verify_vehicle [] "UNKNOWN").is_authorized = false := by
    decide
  refine ⟨?_, hg, ?_, hpu⟩
  · simp only [Gated.upload_image, save_image, Option.getD]
    rw [if_neg hf, hg]
  · simp only [Pub.upload_image, save_image, Option.getD]
    rw [if_neg hf, hpu]

theorem C10_upload_missing_plate_witness :
    Gated.upload_image (some 1) Gated.sample_rows [] 5
        ⟨some "car.jpg", none⟩ =
      (Gated.UploadResponse.ok "Image uploaded" "car.jpg"
        (Gated.verify_vehicle Gated.sample_rows "UNKNOWN"),
       [⟨"car.jpg", 5, "UNKNOWN", false⟩]) ∧
    (Gated.verify_vehicle Gated.sample_rows "UNKNOWN").is_authorized
        = false ∧
    Pub.upload_image [] [] 5 ⟨some "car.jpg", none⟩ =
      (Pub.UploadResponse.ok "Image uploaded" "car.jpg"
        (Pub.verify_vehicle [] "UNKNOWN"),
       [⟨"car.jpg", 5, "UNKNOWN", false⟩]) ∧
    (Pub.verify_vehicle [] "UNKNOWN").is_authorized = false :=
  C10_upload_missing_plate 1 [] 5 "car.jpg" (by decide)

end MiniProject
